import Mathlib

/-!
Verification of the blob-recognition workflow core (`src/app/usecase.py`).

Each use case is embedded as a pure Lean function that returns the sequence
of collaborator calls it performs (an effect trace) together with its result
or raised error.  The DynamoDB blob table is modelled as a keyed list of
records, and `runEffects` gives the store semantics of a trace.
-/

set_option maxHeartbeats 1000000

namespace App

/-- Modelled from the spec: the `RecognitionStatus` enum lives in
`src/app/domain.py`, which is not among the provided sources.  Section 4 of
the spec lists the workflow states, and `src/app/usecase.py` additionally
references `RecognitionStatus.NOT_FOUND`.  Members are modelled as
constructors (distinct enum members have distinct values). -/
inductive RecognitionStatus where
  | WAITING_FOR_UPLOAD
  | UPLOAD_TIMED_OUT
  | IN_PROGRESS
  | INVALID_BLOB_HAS_BEEN_UPLOADED
  | TOO_LARGE_BLOB_HAS_BEEN_UPLOADED
  | SUCCESS
  | FAILED_DUE_TO_CALLBACK_FAILURE
  | FAILED_DUE_TO_CALLBACK_TIME_OUT
  | FAILED_DUE_TO_CALLBACK_CONNECTION
  | UNEXPECTED_ERROR
  | NOT_FOUND
  deriving DecidableEq, Repr

/-- A JSON-ish scalar: the normalized `confidence` field is either the
number produced by Rekognition or the default empty string `''`. -/
inductive JValue where
  | str (s : String)
  | num (q : ℚ)
  deriving DecidableEq, Repr

/-- One entry of the canonical label list built by `TransformLabels`. -/
structure NormalizedLabel where
  label : String
  confidence : JValue
  parents : List String
  deriving DecidableEq, Repr

/-- Modelled from the spec: the persistent `BlobRecord` entity (spec §3);
the DynamoDB client holding it is not among the provided sources. -/
structure BlobRecord where
  callback_url : String
  status : RecognitionStatus
  labels : Option (List NormalizedLabel)
  deriving DecidableEq, Repr

/-- The blob table: an association list keyed by blob id. -/
abbrev Store := List (String × BlobRecord)

/-- `blob_dynamodb_client.get_blob`: lookup by id. -/
def get_blob : Store → String → Option BlobRecord
  | [], _ => none
  | (k, r) :: rest, blob_id => if k = blob_id then some r else get_blob rest blob_id

/-- `blob_dynamodb_client.update_status`: atomic single-record status write. -/
def update_status : Store → String → RecognitionStatus → Store
  | [], _, _ => []
  | (k, r) :: rest, blob_id, status =>
      (k, if k = blob_id then { r with status := status } else r)
        :: update_status rest blob_id status

/-- `blob_dynamodb_client.save_labels`: atomic single-record labels write. -/
def save_labels : Store → String → List NormalizedLabel → Store
  | [], _, _ => []
  | (k, r) :: rest, blob_id, labels =>
      (k, if k = blob_id then { r with labels := some labels } else r)
        :: save_labels rest blob_id labels

/-- `blob_dynamodb_client.create`: insert a fresh record. -/
def createRecord (store : Store) (blob_id callback_url : String)
    (status : RecognitionStatus) : Store :=
  (blob_id, { callback_url := callback_url, status := status, labels := none }) :: store

/-- One collaborator call performed by a use case, in order of execution. -/
inductive Effect where
  | createRecord (blob_id callback_url : String) (status : RecognitionStatus)
  | updateStatus (blob_id : String) (status : RecognitionStatus)
  | saveLabels (blob_id : String) (labels : List NormalizedLabel)
  | getBlobRead (blob_id : String)
  | isUploadedCheck (blob_id : String)
  | launchUploadingStepFunction (blob_id : String)
  | launchRecognitionStepFunction (blob_id : String)
  | generatePresignedUrl (blob_id : String)
  | httpInvoke (url : String)
  deriving DecidableEq, Repr

/-- Which effects write to the blob table. -/
def Effect.isMutation : Effect → Bool
  | .createRecord _ _ _ => true
  | .updateStatus _ _ => true
  | .saveLabels _ _ => true
  | _ => false

/-- Store semantics of a single effect (reads and external calls leave the
store untouched). -/
def applyEffect (store : Store) : Effect → Store
  | .createRecord blob_id callback_url status => createRecord store blob_id callback_url status
  | .updateStatus blob_id status => update_status store blob_id status
  | .saveLabels blob_id labels => save_labels store blob_id labels
  | _ => store

/-- Store semantics of an effect trace. -/
def runEffects (store : Store) (effects : List Effect) : Store :=
  effects.foldl applyEffect store

/-- The exception taxonomy of `src/app/exception.py`, each constructor
carrying the structured payload it is raised with in `src/app/usecase.py`. -/
inductive RecognitionError where
  | callbackUrlIsNotValid (message : String) (callback_url : String)
  | blobWasNotFound (message : String) (blob_id : String) (status : RecognitionStatus)
  | blobIsNotUploadedYet (message : String) (blob_id : String) (status : RecognitionStatus)
  | blobUploadTimedOut (message : String) (blob_id : String) (status : RecognitionStatus)
  | blobRecognitionIsInProgress (message : String) (blob_id : String) (status : RecognitionStatus)
  | invalidBlobHasBeenUploaded (message : String) (blob_id : String) (status : RecognitionStatus)
  | tooLargeBlobHasBeenUploaded (message : String) (blob_id : String) (status : RecognitionStatus)
  | unexpectedErrorOccurred (message : String) (blob_id : String) (status : RecognitionStatus)
  | recognitionStepHasBeenFailed (message : String) (blob_id : String)
  deriving DecidableEq, Repr

/-- Modelled from the spec: DTO returned by the Upload Registrar
(`src/app/dto.py` is not among the provided sources). -/
structure UploadInitializingResult where
  blob_id : String
  upload_url : String
  callback_url : String
  deriving DecidableEq, Repr

/-- Modelled from the spec: DTO `{blob_id, labels}` passed between workflow
steps (`src/app/dto.py` is not among the provided sources). -/
structure RecognitionStepFunctionResult (α : Type) where
  blob_id : String
  labels : α
  deriving DecidableEq, Repr

/-- Modelled from the spec: DTO `{blob_id, labels}` returned to the caller
(`src/app/dto.py` is not among the provided sources). -/
structure BlobRecognitionResult (α : Type) where
  blob_id : String
  labels : α
  deriving DecidableEq, Repr

/-- `InitializeUploadListening.__call__`: validate the callback url, create
the record with status WAITING_FOR_UPLOAD, launch the uploading step
function, generate the presigned url.  The validator outcome and the
presigned-url generator are environment parameters. -/
def InitializeUploadListening (is_valid_url : String → Bool)
    (presign : String → String) (blob_id callback_url : String) :
    List Effect × Except RecognitionError UploadInitializingResult :=
  if is_valid_url callback_url then
    ([.createRecord blob_id callback_url RecognitionStatus.WAITING_FOR_UPLOAD,
      .launchUploadingStepFunction blob_id,
      .generatePresignedUrl blob_id],
     .ok { blob_id := blob_id, upload_url := presign blob_id, callback_url := callback_url })
  else
    ([], .error (.callbackUrlIsNotValid "Invalid callback url supplied." callback_url))

/-- `CheckUploading.__call__`: no-op when the blob is uploaded, otherwise
set status UPLOAD_TIMED_OUT. -/
def CheckUploading (is_uploaded : Bool) (blob_id : String) : List Effect :=
  if is_uploaded then [.isUploadedCheck blob_id]
  else [.isUploadedCheck blob_id, .updateStatus blob_id RecognitionStatus.UPLOAD_TIMED_OUT]

/-- `StartRecognition.__call__`: set status IN_PROGRESS, then launch the
recognition step function. -/
def StartRecognition (blob_id : String) : List Effect :=
  [.updateStatus blob_id RecognitionStatus.IN_PROGRESS,
   .launchRecognitionStepFunction blob_id]

/-- A raw Rekognition parent entry (`{'Name': ...}`, the key may be absent). -/
structure RawParent where
  Name : Option String
  deriving DecidableEq, Repr

/-- A raw Rekognition label entry; every key may be absent. -/
structure RawLabel where
  Name : Option String
  Confidence : Option ℚ
  Parents : Option (List RawParent)
  deriving DecidableEq, Repr

/-- The raw Rekognition payload; the `Labels` key may be absent (or None). -/
structure RawLabelsData where
  Labels : Option (List RawLabel)
  deriving DecidableEq, Repr

/-- The outcome of `blob_rekognition_client.detect_labels` (environment
input of `GetLabels`). -/
inductive DetectOutcome where
  | detected (raw : RawLabelsData)
  | invalidBlob (message : String)
  | tooLargeBlob (message : String)
  deriving DecidableEq, Repr

/-- `GetLabels.__call__`: on success wrap the raw payload; on a classified
recognition failure set the corresponding terminal status and raise
`RecognitionStepHasBeenFailed` with the blob id as payload. -/
def GetLabels (detect_labels : DetectOutcome) (blob_id : String) :
    List Effect × Except RecognitionError (RecognitionStepFunctionResult RawLabelsData) :=
  match detect_labels with
  | .detected raw => ([], .ok { blob_id := blob_id, labels := raw })
  | .invalidBlob msg =>
      ([.updateStatus blob_id RecognitionStatus.INVALID_BLOB_HAS_BEEN_UPLOADED],
       .error (.recognitionStepHasBeenFailed msg blob_id))
  | .tooLargeBlob msg =>
      ([.updateStatus blob_id RecognitionStatus.TOO_LARGE_BLOB_HAS_BEEN_UPLOADED],
       .error (.recognitionStepHasBeenFailed msg blob_id))

/-- The per-label body of the comprehension in `TransformLabels._transform`:
`{'label': label.get('Name', ''), 'confidence': label.get('Confidence', ''),
'parents': [parent.get('Name', '') for parent in label.get('Parents', {})]}`. -/
def transformLabel (label : RawLabel) : NormalizedLabel :=
  { label := label.Name.getD ""
  , confidence :=
      match label.Confidence with
      | some c => JValue.num c
      | none => JValue.str ""
  , parents := (label.Parents.getD []).map (fun parent => parent.Name.getD "") }

/-- `TransformLabels._transform`: `raw_labels_data.get('Labels')` followed by
a comprehension over it.  When the `Labels` key is absent (or bound to None)
the comprehension iterates over `None` and the call dies with a runtime
`TypeError`, modelled as `none`. -/
def TransformLabels.transform (raw_labels_data : RawLabelsData) :
    Option (List NormalizedLabel) :=
  match raw_labels_data.Labels with
  | none => none
  | some labels => some (labels.map transformLabel)

/-- `TransformLabels.__call__`: wrap the normalized labels with the blob id. -/
def TransformLabels (blob_id : String) (raw_labels_data : RawLabelsData) :
    Option (RecognitionStepFunctionResult (List NormalizedLabel)) :=
  (TransformLabels.transform raw_labels_data).map
    (fun labels => { blob_id := blob_id, labels := labels })

/-- `SaveLabels.__call__`: persist the labels, return them unchanged. -/
def SaveLabels (blob_id : String) (labels : List NormalizedLabel) :
    List Effect × RecognitionStepFunctionResult (List NormalizedLabel) :=
  ([.saveLabels blob_id labels], { blob_id := blob_id, labels := labels })

/-- The outcome of the HTTP call made by `Invoker.invoke` (environment
input): a response with some status code, a connect timeout, or a
connection error. -/
inductive HttpOutcome where
  | response (status_code : Nat)
  | connectTimeout
  | connectionError
  deriving DecidableEq, Repr

namespace Invoker

/-- `Invoker.SUCCESS`. -/
def SUCCESS : Nat := 0

/-- `Invoker.CALLBACK_FAILURE`. -/
def CALLBACK_FAILURE : Nat := 1

/-- `Invoker.CONNECTION_TIMEOUT`. -/
def CONNECTION_TIMEOUT : Nat := 2

/-- `Invoker.CONNECTION_ERROR`. -/
def CONNECTION_ERROR : Nat := 3

/-- `Invoker.invoke`: classify the HTTP outcome into one of the four
integer constants. -/
def invoke (outcome : HttpOutcome) : Nat :=
  match outcome with
  | .response status_code => if status_code = 204 then SUCCESS else CALLBACK_FAILURE
  | .connectTimeout => CONNECTION_TIMEOUT
  | .connectionError => CONNECTION_ERROR

end Invoker

/-- `InvokeCallback.__call__`: read the record for the callback url, invoke
the callback with `{blob_id, labels}`, translate the invoker's classification
into a status write, and return normally in every case.  When the record is
absent the source dereferences `None` (`blob.get`) and dies, modelled as
`none`.  `http` gives the environment's outcome for the HTTP call. -/
def InvokeCallback (store : Store)
    (http : String → BlobRecognitionResult (List NormalizedLabel) → HttpOutcome)
    (blob_id : String) (labels : List NormalizedLabel) :
    Option (List Effect × RecognitionStepFunctionResult (List NormalizedLabel)) :=
  match get_blob store blob_id with
  | none => none
  | some blob =>
      let callback_url := blob.callback_url
      let data_to_send : BlobRecognitionResult (List NormalizedLabel) :=
        { blob_id := blob_id, labels := labels }
      let status := Invoker.invoke (http callback_url data_to_send)
      let statusEffects : List Effect :=
        if status = Invoker.SUCCESS then
          [.updateStatus blob_id RecognitionStatus.SUCCESS]
        else if status = Invoker.CALLBACK_FAILURE then
          [.updateStatus blob_id RecognitionStatus.FAILED_DUE_TO_CALLBACK_FAILURE]
        else if status = Invoker.CONNECTION_TIMEOUT then
          [.updateStatus blob_id RecognitionStatus.FAILED_DUE_TO_CALLBACK_TIME_OUT]
        else if status = Invoker.CONNECTION_ERROR then
          [.updateStatus blob_id RecognitionStatus.FAILED_DUE_TO_CALLBACK_CONNECTION]
        else []
      some ([.getBlobRead blob_id, .httpInvoke callback_url] ++ statusEffects,
            { blob_id := blob_id, labels := labels })

/-- `HandleUnexpectedError.__call__`: unconditionally set UNEXPECTED_ERROR. -/
def HandleUnexpectedError (blob_id : String) : List Effect :=
  [.updateStatus blob_id RecognitionStatus.UNEXPECTED_ERROR]

/-- `GetRecognitionResult.__call__`: read the record and classify its status
through the if/elif chain of the source. -/
def GetRecognitionResult (store : Store) (blob_id : String) :
    List Effect × Except RecognitionError (BlobRecognitionResult (Option (List NormalizedLabel))) :=
  match get_blob store blob_id with
  | none =>
      ([.getBlobRead blob_id],
       .error (.blobWasNotFound "Blob not found." blob_id RecognitionStatus.NOT_FOUND))
  | some blob =>
      let status := blob.status
      ([.getBlobRead blob_id],
       if status = RecognitionStatus.WAITING_FOR_UPLOAD then
         .error (.blobIsNotUploadedYet "Blob hasn\x27t been uploaded yet." blob_id status)
       else if status = RecognitionStatus.UPLOAD_TIMED_OUT then
         .error (.blobUploadTimedOut "Blob upload is timed out." blob_id status)
       else if status = RecognitionStatus.IN_PROGRESS then
         .error (.blobRecognitionIsInProgress "Recognition is in progress." blob_id status)
       else if status = RecognitionStatus.INVALID_BLOB_HAS_BEEN_UPLOADED then
         .error (.invalidBlobHasBeenUploaded "Invalid image format has been uploaded." blob_id status)
       else if status = RecognitionStatus.TOO_LARGE_BLOB_HAS_BEEN_UPLOADED then
         .error (.tooLargeBlobHasBeenUploaded "Too large image has been uploaded." blob_id status)
       else if status = RecognitionStatus.UNEXPECTED_ERROR then
         .error (.unexpectedErrorOccurred "Unexpected error occurred while recognition, try again." blob_id status)
       else
         .ok { blob_id := blob_id, labels := blob.labels })

/-- One orchestrator invocation of a use case, together with the
environment inputs (validator verdict, upload presence, Rekognition
outcome, HTTP outcome) that invocation observes. -/
inductive Call where
  | register (blob_id callback_url : String) (valid : Bool)
  | checkUploading (blob_id : String) (uploaded : Bool)
  | startRecognition (blob_id : String)
  | getLabels (blob_id : String) (outcome : DetectOutcome)
  | transformLabels (blob_id : String) (raw : RawLabelsData)
  | saveLabels (blob_id : String) (labels : List NormalizedLabel)
  | invokeCallback (blob_id : String) (outcome : HttpOutcome) (labels : List NormalizedLabel)
  | handleUnexpectedError (blob_id : String)
  | getRecognitionResult (blob_id : String)
  deriving DecidableEq, Repr

/-- The effect trace produced by one invocation against a given store. -/
def callTrace (store : Store) : Call → List Effect
  | .register blob_id callback_url valid =>
      (InitializeUploadListening (fun _ => valid) (fun _ => "") blob_id callback_url).1
  | .checkUploading blob_id uploaded => CheckUploading uploaded blob_id
  | .startRecognition blob_id => StartRecognition blob_id
  | .getLabels blob_id outcome => (GetLabels outcome blob_id).1
  | .transformLabels _ _ => []
  | .saveLabels blob_id labels => (SaveLabels blob_id labels).1
  | .invokeCallback blob_id outcome labels =>
      match InvokeCallback store (fun _ _ => outcome) blob_id labels with
      | none => []
      | some (trace, _) => trace
  | .handleUnexpectedError blob_id => HandleUnexpectedError blob_id
  | .getRecognitionResult blob_id => (GetRecognitionResult store blob_id).1

/-- Store transformation of one invocation. -/
def applyCall (store : Store) (c : Call) : Store :=
  runEffects store (callTrace store c)

/-- Store transformation of a sequence of invocations. -/
def runCalls (store : Store) (cs : List Call) : Store :=
  cs.foldl applyCall store

/-- A status is terminal when it is neither WAITING_FOR_UPLOAD nor
IN_PROGRESS (spec §4). -/
def terminal (s : RecognitionStatus) : Bool :=
  !(s = RecognitionStatus.WAITING_FOR_UPLOAD ∨ s = RecognitionStatus.IN_PROGRESS : Bool)

/-- The edge set as the claim states it: WAITING_FOR_UPLOAD only to
IN_PROGRESS or UPLOAD_TIMED_OUT; IN_PROGRESS only to its seven listed
successors; terminal states have no outgoing edge. -/
def claimedEdge : RecognitionStatus → RecognitionStatus → Bool
  | .WAITING_FOR_UPLOAD, .IN_PROGRESS => true
  | .WAITING_FOR_UPLOAD, .UPLOAD_TIMED_OUT => true
  | .IN_PROGRESS, .INVALID_BLOB_HAS_BEEN_UPLOADED => true
  | .IN_PROGRESS, .TOO_LARGE_BLOB_HAS_BEEN_UPLOADED => true
  | .IN_PROGRESS, .UNEXPECTED_ERROR => true
  | .IN_PROGRESS, .SUCCESS => true
  | .IN_PROGRESS, .FAILED_DUE_TO_CALLBACK_FAILURE => true
  | .IN_PROGRESS, .FAILED_DUE_TO_CALLBACK_TIME_OUT => true
  | .IN_PROGRESS, .FAILED_DUE_TO_CALLBACK_CONNECTION => true
  | _, _ => false

/-- The claimed edges extended with the orchestrator failure edge from
WAITING_FOR_UPLOAD to UNEXPECTED_ERROR, which the spec (§4) declares
reachable from every non-terminal state. -/
def allowedEdge (a b : RecognitionStatus) : Bool :=
  claimedEdge a b ||
    (a = RecognitionStatus.WAITING_FOR_UPLOAD ∧ b = RecognitionStatus.UNEXPECTED_ERROR : Bool)

/-- The status of a record, when present. -/
def statusOf (store : Store) (blob_id : String) : Option RecognitionStatus :=
  (get_blob store blob_id).map BlobRecord.status

/-- The invocation discipline of the external orchestrator: each step is
invoked only while the targeted record is in one of that step's intended
source states. -/
def guardOK (store : Store) : Call → Prop
  | .register blob_id _ _ => get_blob store blob_id = none
  | .checkUploading blob_id _ =>
      statusOf store blob_id = some RecognitionStatus.WAITING_FOR_UPLOAD
  | .startRecognition blob_id =>
      statusOf store blob_id = some RecognitionStatus.WAITING_FOR_UPLOAD ∨
      statusOf store blob_id = some RecognitionStatus.IN_PROGRESS
  | .getLabels blob_id _ => statusOf store blob_id = some RecognitionStatus.IN_PROGRESS
  | .transformLabels _ _ => True
  | .saveLabels blob_id _ => statusOf store blob_id = some RecognitionStatus.IN_PROGRESS
  | .invokeCallback blob_id _ _ => statusOf store blob_id = some RecognitionStatus.IN_PROGRESS
  | .handleUnexpectedError blob_id =>
      (get_blob store blob_id).map (fun r => terminal r.status) = some false
  | .getRecognitionResult _ => True

instance (store : Store) (c : Call) : Decidable (guardOK store c) := by
  cases c <;> simp only [guardOK] <;> infer_instance

/-- Every invocation of the sequence respects the discipline at the store
it actually runs against. -/
def guardedRunOK : Store → List Call → Prop
  | _, [] => True
  | store, c :: cs => guardOK store c ∧ guardedRunOK (applyCall store c) cs

/-- Modelled from the spec: the expected status-to-failure table of the
Result Reader (spec §4.8), one failure kind per listed status, each
carrying the blob id and the status as payload. -/
def specResultFailure (blob_id : String) : RecognitionStatus → Option RecognitionError
  | .WAITING_FOR_UPLOAD =>
      some (.blobIsNotUploadedYet "Blob hasn\x27t been uploaded yet." blob_id .WAITING_FOR_UPLOAD)
  | .UPLOAD_TIMED_OUT =>
      some (.blobUploadTimedOut "Blob upload is timed out." blob_id .UPLOAD_TIMED_OUT)
  | .IN_PROGRESS =>
      some (.blobRecognitionIsInProgress "Recognition is in progress." blob_id .IN_PROGRESS)
  | .INVALID_BLOB_HAS_BEEN_UPLOADED =>
      some (.invalidBlobHasBeenUploaded "Invalid image format has been uploaded." blob_id
        .INVALID_BLOB_HAS_BEEN_UPLOADED)
  | .TOO_LARGE_BLOB_HAS_BEEN_UPLOADED =>
      some (.tooLargeBlobHasBeenUploaded "Too large image has been uploaded." blob_id
        .TOO_LARGE_BLOB_HAS_BEEN_UPLOADED)
  | .UNEXPECTED_ERROR =>
      some (.unexpectedErrorOccurred "Unexpected error occurred while recognition, try again."
        blob_id .UNEXPECTED_ERROR)
  | _ => none

/-- Modelled from the spec: the callback classification table of §4.7 —
204 to SUCCESS, any other code to FAILED_DUE_TO_CALLBACK_FAILURE, timeout
to FAILED_DUE_TO_CALLBACK_TIME_OUT, connection error to
FAILED_DUE_TO_CALLBACK_CONNECTION. -/
def specCallbackStatus : HttpOutcome → RecognitionStatus
  | .response code =>
      if code = 204 then .SUCCESS else .FAILED_DUE_TO_CALLBACK_FAILURE
  | .connectTimeout => .FAILED_DUE_TO_CALLBACK_TIME_OUT
  | .connectionError => .FAILED_DUE_TO_CALLBACK_CONNECTION

theorem get_blob_update_status (store : Store) (b bid : String) (s : RecognitionStatus) :
    get_blob (update_status store b s) bid =
      (get_blob store bid).map (fun r => if bid = b then { r with status := s } else r) := by
  induction store with
  | nil => rfl
  | cons p rest ih =>
      obtain ⟨k, r⟩ := p
      by_cases hb : k = bid
      · subst hb
        simp [get_blob, update_status, ih]
      · simp [get_blob, update_status, hb, ih]

theorem get_blob_save_labels (store : Store) (b bid : String) (ls : List NormalizedLabel) :
    get_blob (save_labels store b ls) bid =
      (get_blob store bid).map (fun r => if bid = b then { r with labels := some ls } else r) := by
  induction store with
  | nil => rfl
  | cons p rest ih =>
      obtain ⟨k, r⟩ := p
      by_cases hb : k = bid
      · subst hb
        simp [get_blob, save_labels, ih]
      · simp [get_blob, save_labels, hb, ih]

theorem get_blob_createRecord (store : Store) (b cb bid : String) (s : RecognitionStatus) :
    get_blob (createRecord store b cb s) bid =
      if b = bid then some { callback_url := cb, status := s, labels := none }
      else get_blob store bid := rfl

theorem statusOf_update_status (store : Store) (b bid : String) (s : RecognitionStatus) :
    statusOf (update_status store b s) bid =
      (statusOf store bid).map (fun st => if bid = b then s else st) := by
  simp only [statusOf, get_blob_update_status, Option.map_map]
  cases get_blob store bid <;> by_cases h : bid = b <;> simp [h, Function.comp]

theorem statusOf_save_labels (store : Store) (b bid : String) (ls : List NormalizedLabel) :
    statusOf (save_labels store b ls) bid = statusOf store bid := by
  simp only [statusOf, get_blob_save_labels, Option.map_map]
  cases get_blob store bid <;> by_cases h : bid = b <;> simp [h, Function.comp]

theorem statusOf_update_cases (store : Store) (b bid : String) (u s s' : RecognitionStatus)
    (h : statusOf store bid = some s)
    (h' : statusOf (update_status store b u) bid = some s') :
    (bid = b ∧ s' = u) ∨ s' = s := by
  rw [statusOf_update_status, h] at h'
  by_cases hb : bid = b
  · simp [hb] at h'
    exact Or.inl ⟨hb, h'.symm⟩
  · simp [hb] at h'
    exact Or.inr h'.symm

theorem statusOf_isSome_applyEffect (store : Store) (e : Effect) (bid : String)
    (h : (statusOf store bid).isSome) : (statusOf (applyEffect store e) bid).isSome := by
  cases e <;>
    simp_all [applyEffect, statusOf, get_blob_update_status, get_blob_save_labels,
      get_blob_createRecord]
  split <;> simp_all

theorem statusOf_isSome_runEffects (store : Store) (es : List Effect) (bid : String)
    (h : (statusOf store bid).isSome) : (statusOf (runEffects store es) bid).isSome := by
  induction es generalizing store with
  | nil => exact h
  | cons e rest ih =>
      have h1 := statusOf_isSome_applyEffect store e bid h
      simpa [runEffects, List.foldl] using ih (applyEffect store e) h1

theorem statusOf_isSome_applyCall (store : Store) (c : Call) (bid : String)
    (h : (statusOf store bid).isSome) : (statusOf (applyCall store c) bid).isSome :=
  statusOf_isSome_runEffects store (callTrace store c) bid h

theorem statusStep (store : Store) (c : Call) (bid : String) (s s' : RecognitionStatus)
    (hg : guardOK store c)
    (h : statusOf store bid = some s)
    (h' : statusOf (applyCall store c) bid = some s') :
    s' = s ∨ allowedEdge s s' = true := by
  cases c with
  | register b cb valid =>
      cases valid with
      | false =>
          simp only [applyCall, callTrace, InitializeUploadListening, Bool.false_eq_true,
            if_false, runEffects, List.foldl] at h'
          rw [h] at h'
          exact Or.inl (Option.some.inj h').symm
      | true =>
          simp only [guardOK] at hg
          simp only [applyCall, callTrace, InitializeUploadListening, if_true,
            runEffects, List.foldl, applyEffect] at h'
          simp only [statusOf, get_blob_createRecord] at h'
          by_cases hb : b = bid
          · rw [hb] at hg
            unfold statusOf at h
            rw [hg] at h
            exact absurd h (by simp)
          · rw [if_neg hb] at h'
            unfold statusOf at h
            rw [h] at h'
            exact Or.inl (Option.some.inj h').symm
  | checkUploading b uploaded =>
      simp only [guardOK] at hg
      cases uploaded with
      | true =>
          simp only [applyCall, callTrace, CheckUploading, if_true,
            runEffects, List.foldl, applyEffect] at h'
          rw [h] at h'
          exact Or.inl (Option.some.inj h').symm
      | false =>
          simp only [applyCall, callTrace, CheckUploading, Bool.false_eq_true, if_false,
            runEffects, List.foldl, applyEffect] at h'
          rcases statusOf_update_cases store b bid _ s s' h h' with ⟨hb, hs⟩ | hs
          · subst hb
            rw [h] at hg
            have hsw : s = RecognitionStatus.WAITING_FOR_UPLOAD := Option.some.inj hg
            subst hsw; subst hs
            exact Or.inr (by decide)
          · exact Or.inl hs
  | startRecognition b =>
      simp only [guardOK] at hg
      simp only [applyCall, callTrace, StartRecognition,
        runEffects, List.foldl, applyEffect] at h'
      rcases statusOf_update_cases store b bid _ s s' h h' with ⟨hb, hs⟩ | hs
      · subst hb
        subst hs
        rcases hg with hg | hg <;> rw [h] at hg <;>
          have := Option.some.inj hg <;> subst this
        · exact Or.inr (by decide)
        · exact Or.inl rfl
      · exact Or.inl hs
  | getLabels b outcome =>
      simp only [guardOK] at hg
      cases outcome with
      | detected raw =>
          simp only [applyCall, callTrace, GetLabels, runEffects, List.foldl] at h'
          rw [h] at h'
          exact Or.inl (Option.some.inj h').symm
      | invalidBlob msg =>
          simp only [applyCall, callTrace, GetLabels,
            runEffects, List.foldl, applyEffect] at h'
          rcases statusOf_update_cases store b bid _ s s' h h' with ⟨hb, hs⟩ | hs
          · subst hb
            rw [h] at hg
            have hsw := Option.some.inj hg
            subst hsw; subst hs
            exact Or.inr (by decide)
          · exact Or.inl hs
      | tooLargeBlob msg =>
          simp only [applyCall, callTrace, GetLabels,
            runEffects, List.foldl, applyEffect] at h'
          rcases statusOf_update_cases store b bid _ s s' h h' with ⟨hb, hs⟩ | hs
          · subst hb
            rw [h] at hg
            have hsw := Option.some.inj hg
            subst hsw; subst hs
            exact Or.inr (by decide)
          · exact Or.inl hs
  | transformLabels b raw =>
      simp only [applyCall, callTrace, runEffects, List.foldl] at h'
      rw [h] at h'
      exact Or.inl (Option.some.inj h').symm
  | saveLabels b ls =>
      simp only [applyCall, callTrace, SaveLabels,
        runEffects, List.foldl, applyEffect] at h'
      rw [statusOf_save_labels, h] at h'
      exact Or.inl (Option.some.inj h').symm
  | invokeCallback b outcome ls =>
      simp only [guardOK] at hg
      obtain ⟨r, hr, hrs⟩ : ∃ r, get_blob store b = some r ∧
          r.status = RecognitionStatus.IN_PROGRESS := by
        rcases Option.map_eq_some'.mp hg with ⟨r, hr, hrs⟩
        exact ⟨r, hr, hrs⟩
      have hupd : ∀ u : RecognitionStatus,
          statusOf (update_status store b u) bid = some s' →
          s' = s ∨ (s = RecognitionStatus.IN_PROGRESS ∧ s' = u) := by
        intro u hu
        rcases statusOf_update_cases store b bid u s s' h hu with ⟨hb, hs⟩ | hs
        · subst hb
          unfold statusOf at h
          rw [hr] at h
          have : r.status = s := Option.some.inj h
          exact Or.inr ⟨by rw [← this, hrs], hs⟩
        · exact Or.inl hs
      cases outcome with
      | response code =>
          by_cases hc : code = 204
          · subst hc
            simp only [applyCall, callTrace, InvokeCallback, hr, Invoker.invoke,
              Invoker.SUCCESS, Invoker.CALLBACK_FAILURE, Invoker.CONNECTION_TIMEOUT,
              Invoker.CONNECTION_ERROR, if_pos rfl, List.cons_append, List.nil_append,
              runEffects, List.foldl, applyEffect, reduceIte] at h'
            rcases hupd _ h' with hs | ⟨hsp, hs⟩
            · exact Or.inl hs
            · subst hsp; subst hs; exact Or.inr (by decide)
          · simp only [applyCall, callTrace, InvokeCallback, hr, Invoker.invoke,
              Invoker.SUCCESS, Invoker.CALLBACK_FAILURE, Invoker.CONNECTION_TIMEOUT,
              Invoker.CONNECTION_ERROR, if_neg hc, List.cons_append, List.nil_append,
              runEffects, List.foldl, applyEffect, reduceIte] at h'
            rcases hupd _ h' with hs | ⟨hsp, hs⟩
            · exact Or.inl hs
            · subst hsp; subst hs; exact Or.inr (by decide)
      | connectTimeout =>
          simp only [applyCall, callTrace, InvokeCallback, hr, Invoker.invoke,
            Invoker.SUCCESS, Invoker.CALLBACK_FAILURE, Invoker.CONNECTION_TIMEOUT,
            Invoker.CONNECTION_ERROR, List.cons_append, List.nil_append,
            runEffects, List.foldl, applyEffect, reduceIte] at h'
          rcases hupd _ h' with hs | ⟨hsp, hs⟩
          · exact Or.inl hs
          · subst hsp; subst hs; exact Or.inr (by decide)
      | connectionError =>
          simp only [applyCall, callTrace, InvokeCallback, hr, Invoker.invoke,
            Invoker.SUCCESS, Invoker.CALLBACK_FAILURE, Invoker.CONNECTION_TIMEOUT,
            Invoker.CONNECTION_ERROR, List.cons_append, List.nil_append,
            runEffects, List.foldl, applyEffect, reduceIte] at h'
          rcases hupd _ h' with hs | ⟨hsp, hs⟩
          · exact Or.inl hs
          · subst hsp; subst hs; exact Or.inr (by decide)
  | handleUnexpectedError b =>
      simp only [guardOK] at hg
      obtain ⟨r, hr, hrt⟩ : ∃ r, get_blob store b = some r ∧ terminal r.status = false := by
        rcases Option.map_eq_some'.mp hg with ⟨r, hr, hrt⟩
        exact ⟨r, hr, hrt⟩
      simp only [applyCall, callTrace, HandleUnexpectedError,
        runEffects, List.foldl, applyEffect] at h'
      rcases statusOf_update_cases store b bid _ s s' h h' with ⟨hb, hs⟩ | hs
      · subst hb
        unfold statusOf at h
        rw [hr] at h
        have hsr : r.status = s := Option.some.inj h
        rw [hsr] at hrt
        subst hs
        cases s <;> simp [terminal] at hrt <;> exact Or.inr (by decide)
      · exact Or.inl hs
  | getRecognitionResult b =>
      cases hgb : get_blob store b with
      | none =>
          simp only [applyCall, callTrace, GetRecognitionResult, hgb,
            runEffects, List.foldl, applyEffect] at h'
          rw [h] at h'
          exact Or.inl (Option.some.inj h').symm
      | some blob =>
          simp only [applyCall, callTrace, GetRecognitionResult, hgb,
            runEffects, List.foldl, applyEffect] at h'
          rw [h] at h'
          exact Or.inl (Option.some.inj h').symm

/-- C1: for every blob id the Result Reader fails with `BlobWasNotFound`
when the store has no record, and otherwise maps the record status
deterministically through the spec table `specResultFailure` — each of the
six listed statuses to its one failure, payload carrying the blob id and
the status — falling through to the success payload otherwise; and its
trace contains no store mutation. -/
theorem C1_result_reader_total_mapping (store : Store) (blob_id : String) :
    (GetRecognitionResult store blob_id).1.all (fun e => !e.isMutation) = true ∧
    (GetRecognitionResult store blob_id).2 =
      (match get_blob store blob_id with
       | none =>
           .error (.blobWasNotFound "Blob not found." blob_id RecognitionStatus.NOT_FOUND)
       | some r =>
           match specResultFailure blob_id r.status with
           | some err => .error err
           | none => .ok { blob_id := blob_id, labels := r.labels }) := by
  constructor
  · cases hgb : get_blob store blob_id <;>
      simp [GetRecognitionResult, hgb, Effect.isMutation]
  · cases hgb : get_blob store blob_id with
    | none => simp [GetRecognitionResult, hgb]
    | some r =>
        obtain ⟨cb, st, ls⟩ := r
        cases st <;> simp [GetRecognitionResult, hgb, specResultFailure]

/-- C2: a record whose status is none of the six explicitly matched
statuses — in particular SUCCESS and the three FAILED_DUE_TO_CALLBACK
statuses — falls through to the success payload `{blob_id, labels}` with
the labels read from the record, raising no error. -/
theorem C2_unmatched_status_falls_through (store : Store) (blob_id : String)
    (r : BlobRecord)
    (h : get_blob store blob_id = some r)
    (h1 : r.status ≠ RecognitionStatus.WAITING_FOR_UPLOAD)
    (h2 : r.status ≠ RecognitionStatus.UPLOAD_TIMED_OUT)
    (h3 : r.status ≠ RecognitionStatus.IN_PROGRESS)
    (h4 : r.status ≠ RecognitionStatus.INVALID_BLOB_HAS_BEEN_UPLOADED)
    (h5 : r.status ≠ RecognitionStatus.TOO_LARGE_BLOB_HAS_BEEN_UPLOADED)
    (h6 : r.status ≠ RecognitionStatus.UNEXPECTED_ERROR) :
    (GetRecognitionResult store blob_id).2 =
      .ok { blob_id := blob_id, labels := r.labels } := by
  simp [GetRecognitionResult, h, h1, h2, h3, h4, h5, h6]

/-- Witness for C2 at a record in status FAILED_DUE_TO_CALLBACK_FAILURE. -/
theorem C2_unmatched_status_falls_through_witness :
    (GetRecognitionResult
        [("b1", { callback_url := "https://example.com/cb",
                  status := RecognitionStatus.FAILED_DUE_TO_CALLBACK_FAILURE,
                  labels := some [] })] "b1").2 =
      .ok { blob_id := "b1", labels := some [] } :=
  C2_unmatched_status_falls_through _ "b1"
    { callback_url := "https://example.com/cb",
      status := RecognitionStatus.FAILED_DUE_TO_CALLBACK_FAILURE,
      labels := some [] }
    (by decide) (by decide) (by decide) (by decide) (by decide) (by decide) (by decide)

/-- C5: the Label Extractor has exactly three outcomes — success returns
the raw payload unchanged wrapped with the blob id and touches nothing;
an unsupported-format report writes INVALID_BLOB_HAS_BEEN_UPLOADED and
raises `RecognitionStepHasBeenFailed` with the blob id; an over-size
report writes TOO_LARGE_BLOB_HAS_BEEN_UPLOADED and raises the same error.
The two failure branches really move the stored status. -/
theorem C5_label_extractor_three_outcomes (blob_id : String) :
    (∀ raw, GetLabels (DetectOutcome.detected raw) blob_id =
        ([], .ok { blob_id := blob_id, labels := raw })) ∧
    (∀ msg, GetLabels (DetectOutcome.invalidBlob msg) blob_id =
        ([Effect.updateStatus blob_id RecognitionStatus.INVALID_BLOB_HAS_BEEN_UPLOADED],
         .error (.recognitionStepHasBeenFailed msg blob_id))) ∧
    (∀ msg, GetLabels (DetectOutcome.tooLargeBlob msg) blob_id =
        ([Effect.updateStatus blob_id RecognitionStatus.TOO_LARGE_BLOB_HAS_BEEN_UPLOADED],
         .error (.recognitionStepHasBeenFailed msg blob_id))) ∧
    (∀ msg store, statusOf
        (runEffects store (GetLabels (DetectOutcome.invalidBlob msg) blob_id).1) blob_id =
      (statusOf store blob_id).map
        (fun _ => RecognitionStatus.INVALID_BLOB_HAS_BEEN_UPLOADED)) ∧
    (∀ msg store, statusOf
        (runEffects store (GetLabels (DetectOutcome.tooLargeBlob msg) blob_id).1) blob_id =
      (statusOf store blob_id).map
        (fun _ => RecognitionStatus.TOO_LARGE_BLOB_HAS_BEEN_UPLOADED)) := by
  refine ⟨fun _ => rfl, fun _ => rfl, fun _ => rfl, ?_, ?_⟩ <;>
    · intro msg store
      simp [GetLabels, runEffects, applyEffect, statusOf_update_status]

/-- C7: the Recognition Trigger writes status IN_PROGRESS strictly before
it launches the recognition workflow: both effects occur, and wherever the
launch effect sits in the trace, the status write is among the effects
strictly before it. -/
theorem C7_status_written_before_launch (blob_id : String) :
    Effect.updateStatus blob_id RecognitionStatus.IN_PROGRESS ∈ StartRecognition blob_id ∧
    Effect.launchRecognitionStepFunction blob_id ∈ StartRecognition blob_id ∧
    ∀ l₁ l₂, StartRecognition blob_id =
        l₁ ++ Effect.launchRecognitionStepFunction blob_id :: l₂ →
      Effect.updateStatus blob_id RecognitionStatus.IN_PROGRESS ∈ l₁ := by
  refine ⟨by simp [StartRecognition], by simp [StartRecognition], ?_⟩
  intro l₁ l₂ hsplit
  match l₁ with
  | [] => simp [StartRecognition] at hsplit
  | [a] =>
      simp only [StartRecognition, List.cons_append, List.nil_append,
        List.cons.injEq] at hsplit
      rw [← hsplit.1]
      exact List.mem_singleton.mpr rfl
  | a :: b :: rest =>
      simp only [StartRecognition, List.cons_append, List.cons.injEq] at hsplit
      rcases hsplit with ⟨-, -, hsplit⟩
      exact absurd hsplit (by simp)

/-- Witness for C7: splitting the trace at the launch effect puts the
status write in the prefix. -/
theorem C7_status_written_before_launch_witness :
    Effect.updateStatus "b1" RecognitionStatus.IN_PROGRESS ∈
      ([Effect.updateStatus "b1" RecognitionStatus.IN_PROGRESS] : List Effect) :=
  (C7_status_written_before_launch "b1").2.2
    [Effect.updateStatus "b1" RecognitionStatus.IN_PROGRESS] [] rfl

/-- C8: the Label Normalizer is structure-preserving — for a raw payload
with N labels the output has exactly N entries in the same order, each of
shape `{label, confidence, parents}` with a missing name or confidence
defaulted to the empty string, a label with zero parents yielding
`parents = []` — and an invocation touches no store. -/
theorem C8_normalizer_structure_preserving (blob_id : String) (labels : List RawLabel) :
    ∃ out : List NormalizedLabel, TransformLabels blob_id { Labels := some labels } =
        some { blob_id := blob_id, labels := out } ∧
      out.length = labels.length ∧
      (∀ (i : ℕ) (lab : RawLabel), labels[i]? = some lab →
        out[i]? = some
          { label := lab.Name.getD ""
          , confidence :=
              match lab.Confidence with
              | some c => JValue.num c
              | none => JValue.str ""
          , parents := (lab.Parents.getD []).map (fun p => p.Name.getD "") }) ∧
      (∀ (i : ℕ) (lab : RawLabel), labels[i]? = some lab →
        lab.Parents = some [] ∨ lab.Parents = none →
        ∃ e, out[i]? = some e ∧ e.parents = []) ∧
      (∀ store raw, applyCall store (Call.transformLabels blob_id raw) = store) := by
  refine ⟨labels.map transformLabel, rfl, List.length_map _ _, ?_, ?_, fun _ _ => rfl⟩
  · intro i lab hget
    rw [List.getElem?_map, hget]
    rfl
  · intro i lab hget hpar
    refine ⟨transformLabel lab, by rw [List.getElem?_map, hget]; rfl, ?_⟩
    rcases hpar with hpar | hpar <;> simp [transformLabel, hpar]

/-- Witness for C8 at a two-label payload: one full label, one with every
key absent. -/
theorem C8_normalizer_structure_preserving_witness :
    ∃ out : List NormalizedLabel, TransformLabels "b1"
        { Labels := some
            [ { Name := some "Cat", Confidence := some (981 / 10 : ℚ)
              , Parents := some [{ Name := some "Animal" }] }
            , { Name := none, Confidence := none, Parents := none } ] } =
          some { blob_id := "b1", labels := out } ∧
      out.length = 2 ∧
      out[0]? = some
        { label := "Cat", confidence := JValue.num (981 / 10 : ℚ)
        , parents := ["Animal"] } ∧
      out[1]? = some
        { label := "", confidence := JValue.str "", parents := [] } := by
  obtain ⟨out, h1, h2, h3, h4, h5⟩ :=
    C8_normalizer_structure_preserving "b1"
      [ { Name := some "Cat", Confidence := some (981 / 10 : ℚ)
        , Parents := some [{ Name := some "Animal" }] }
      , { Name := none, Confidence := none, Parents := none } ]
  exact ⟨out, h1, h2, h3 0 _ rfl, h3 1 _ rfl⟩

/-- C10: `TransformLabels` is defined only on payloads carrying a `Labels`
sequence — a payload without it dies before producing output (modelled as
`none`), and with it the transformation always succeeds. -/
theorem C10_transform_requires_labels_key :
    (∀ blob_id (raw : RawLabelsData), raw.Labels = none →
        TransformLabels blob_id raw = none) ∧
    (∀ blob_id (raw : RawLabelsData) ls, raw.Labels = some ls →
        ∃ res, TransformLabels blob_id raw = some res) := by
  constructor
  · intro blob_id raw h
    simp [TransformLabels, TransformLabels.transform, h]
  · intro blob_id raw ls h
    refine ⟨{ blob_id := blob_id, labels := ls.map transformLabel }, ?_⟩
    simp [TransformLabels, TransformLabels.transform, h]

/-- Witness for C10: a payload without the Labels key dies, one with it
succeeds. -/
theorem C10_transform_requires_labels_key_witness :
    TransformLabels "b1" { Labels := none } = none ∧
    ∃ res, TransformLabels "b1" { Labels := some [] } = some res :=
  ⟨C10_transform_requires_labels_key.1 "b1" { Labels := none } rfl,
   C10_transform_requires_labels_key.2 "b1" { Labels := some [] } [] rfl⟩

/-- C3: the Callback Dispatcher classifies every delivery attempt into
exactly one of the four outcomes of the spec table `specCallbackStatus`
(204 to SUCCESS, other codes to FAILED_DUE_TO_CALLBACK_FAILURE, timeout to
FAILED_DUE_TO_CALLBACK_TIME_OUT, connection error to
FAILED_DUE_TO_CALLBACK_CONNECTION), writes exactly that status, and
returns normally in every case; the invoker has no fifth outcome. -/
theorem C3_callback_classification_total (store : Store)
    (http : String → BlobRecognitionResult (List NormalizedLabel) → HttpOutcome)
    (blob_id : String) (labels : List NormalizedLabel) (r : BlobRecord)
    (h : get_blob store blob_id = some r) :
    InvokeCallback store http blob_id labels =
      some ([Effect.getBlobRead blob_id, Effect.httpInvoke r.callback_url,
             Effect.updateStatus blob_id
               (specCallbackStatus (http r.callback_url { blob_id := blob_id, labels := labels }))],
            { blob_id := blob_id, labels := labels }) ∧
    Invoker.invoke (http r.callback_url { blob_id := blob_id, labels := labels }) ∈
      [Invoker.SUCCESS, Invoker.CALLBACK_FAILURE, Invoker.CONNECTION_TIMEOUT,
       Invoker.CONNECTION_ERROR] := by
  cases hoc : http r.callback_url { blob_id := blob_id, labels := labels } with
  | response code =>
      by_cases hc : code = 204 <;>
        simp [InvokeCallback, h, hoc, Invoker.invoke, Invoker.SUCCESS,
          Invoker.CALLBACK_FAILURE, Invoker.CONNECTION_TIMEOUT, Invoker.CONNECTION_ERROR,
          specCallbackStatus, hc]
  | connectTimeout =>
      simp [InvokeCallback, h, hoc, Invoker.invoke, Invoker.SUCCESS,
        Invoker.CALLBACK_FAILURE, Invoker.CONNECTION_TIMEOUT, Invoker.CONNECTION_ERROR,
        specCallbackStatus]
  | connectionError =>
      simp [InvokeCallback, h, hoc, Invoker.invoke, Invoker.SUCCESS,
        Invoker.CALLBACK_FAILURE, Invoker.CONNECTION_TIMEOUT, Invoker.CONNECTION_ERROR,
        specCallbackStatus]

/-- Witness for C3 at a connect-timeout delivery attempt. -/
theorem C3_callback_classification_total_witness :
    InvokeCallback
        [("b1", { callback_url := "https://example.com/cb",
                  status := RecognitionStatus.IN_PROGRESS, labels := none })]
        (fun _ _ => HttpOutcome.connectTimeout) "b1" [] =
      some ([Effect.getBlobRead "b1", Effect.httpInvoke "https://example.com/cb",
             Effect.updateStatus "b1" RecognitionStatus.FAILED_DUE_TO_CALLBACK_TIME_OUT],
            { blob_id := "b1", labels := [] }) ∧
    Invoker.invoke HttpOutcome.connectTimeout ∈
      [Invoker.SUCCESS, Invoker.CALLBACK_FAILURE, Invoker.CONNECTION_TIMEOUT,
       Invoker.CONNECTION_ERROR] :=
  C3_callback_classification_total _ (fun _ _ => HttpOutcome.connectTimeout) "b1" []
    { callback_url := "https://example.com/cb",
      status := RecognitionStatus.IN_PROGRESS, labels := none }
    (by decide)

/-- C4: a callback URL the validator rejects makes the Upload Registrar
fail with `CallbackUrlIsNotValid` carrying the offending URL, with an
empty effect trace — no record creation, no workflow launch, no upload
target — so any store passes through unchanged. -/
theorem C4_invalid_url_zero_side_effects (is_valid_url : String → Bool)
    (presign : String → String) (blob_id callback_url : String)
    (h : is_valid_url callback_url = false) :
    InitializeUploadListening is_valid_url presign blob_id callback_url =
      ([], .error (.callbackUrlIsNotValid "Invalid callback url supplied." callback_url)) ∧
    ∀ store, runEffects store
        (InitializeUploadListening is_valid_url presign blob_id callback_url).1 = store := by
  have heq : InitializeUploadListening is_valid_url presign blob_id callback_url =
      ([], .error (.callbackUrlIsNotValid "Invalid callback url supplied." callback_url)) := by
    simp [InitializeUploadListening, h]
  exact ⟨heq, fun store => by rw [heq]; rfl⟩

/-- Witness for C4 at a rejecting validator. -/
theorem C4_invalid_url_zero_side_effects_witness :
    InitializeUploadListening (fun _ => false) (fun _ => "") "b1" "not-a-url" =
      ([], .error (.callbackUrlIsNotValid "Invalid callback url supplied." "not-a-url")) ∧
    runEffects [] (InitializeUploadListening (fun _ => false) (fun _ => "") "b1" "not-a-url").1 = [] :=
  ⟨(C4_invalid_url_zero_side_effects (fun _ => false) (fun _ => "") "b1" "not-a-url" rfl).1,
   (C4_invalid_url_zero_side_effects (fun _ => false) (fun _ => "") "b1" "not-a-url" rfl).2 []⟩

/-- C9: invoking the Recognition Trigger twice for the same blob id is
idempotent on the store — after the first and after the second invocation
the record status is IN_PROGRESS (and the trigger has no raising path). -/
theorem C9_trigger_idempotent (store : Store) (blob_id : String) (s : RecognitionStatus)
    (h : statusOf store blob_id = some s) :
    statusOf (runEffects store (StartRecognition blob_id)) blob_id =
      some RecognitionStatus.IN_PROGRESS ∧
    statusOf (runEffects (runEffects store (StartRecognition blob_id))
        (StartRecognition blob_id)) blob_id = some RecognitionStatus.IN_PROGRESS := by
  have once : ∀ (st : Store) (u : RecognitionStatus), statusOf st blob_id = some u →
      statusOf (runEffects st (StartRecognition blob_id)) blob_id =
        some RecognitionStatus.IN_PROGRESS := by
    intro st u hu
    simp [StartRecognition, runEffects, applyEffect, statusOf_update_status, hu]
  exact ⟨once store s h, once _ _ (once store s h)⟩

/-- Witness for C9 at a freshly registered record. -/
theorem C9_trigger_idempotent_witness :
    statusOf (runEffects
        [("b1", { callback_url := "https://example.com/cb",
                  status := RecognitionStatus.WAITING_FOR_UPLOAD, labels := none })]
        (StartRecognition "b1")) "b1" = some RecognitionStatus.IN_PROGRESS ∧
    statusOf (runEffects (runEffects
        [("b1", { callback_url := "https://example.com/cb",
                  status := RecognitionStatus.WAITING_FOR_UPLOAD, labels := none })]
        (StartRecognition "b1")) (StartRecognition "b1")) "b1" =
      some RecognitionStatus.IN_PROGRESS :=
  C9_trigger_idempotent _ "b1" RecognitionStatus.WAITING_FOR_UPLOAD (by decide)

/-- Counterexample to C6 as stated: `update_status` is unconditional, so a
single Recognition Trigger invocation moves a record that is already in the
terminal status SUCCESS back to IN_PROGRESS — an edge the claimed state
machine does not have. -/
theorem C6_counterexample_terminal_moves :
    statusOf [("b1", { callback_url := "https://example.com/cb",
                       status := RecognitionStatus.SUCCESS, labels := some [] })] "b1" =
      some RecognitionStatus.SUCCESS ∧
    terminal RecognitionStatus.SUCCESS = true ∧
    statusOf (runCalls [("b1", { callback_url := "https://example.com/cb",
                                 status := RecognitionStatus.SUCCESS, labels := some [] })]
        [Call.startRecognition "b1"]) "b1" = some RecognitionStatus.IN_PROGRESS ∧
    claimedEdge RecognitionStatus.SUCCESS RecognitionStatus.IN_PROGRESS = false := by
  refine ⟨rfl, rfl, ?_, rfl⟩
  decide

/-- C6 as amended: under the orchestrator's invocation discipline
(`guardedRunOK` — each step invoked only from its intended source states),
every sequence of use-case invocations moves a record's status only along
the §4 edges extended with the orchestrator failure edge
WAITING_FOR_UPLOAD to UNEXPECTED_ERROR. -/
theorem C6_guarded_transitions_follow_edges (store : Store) (cs : List Call)
    (blob_id : String) (s s' : RecognitionStatus)
    (hg : guardedRunOK store cs)
    (h : statusOf store blob_id = some s)
    (h' : statusOf (runCalls store cs) blob_id = some s') :
    Relation.ReflTransGen (fun a b => allowedEdge a b = true) s s' := by
  induction cs generalizing store s with
  | nil =>
      simp only [runCalls, List.foldl] at h'
      rw [h] at h'
      rw [Option.some.inj h']
  | cons c rest ih =>
      obtain ⟨hgc, hgrest⟩ := hg
      have hsome : (statusOf (applyCall store c) blob_id).isSome :=
        statusOf_isSome_applyCall store c blob_id (by rw [h]; rfl)
      obtain ⟨s₁, hs₁⟩ := Option.isSome_iff_exists.mp hsome
      have hrest : Relation.ReflTransGen (fun a b => allowedEdge a b = true) s₁ s' := by
        apply ih (applyCall store c) s₁ hgrest hs₁
        simpa only [runCalls, List.foldl] using h'
      rcases statusStep store c blob_id s s₁ hgc h hs₁ with heq | hedge
      · rw [← heq]
        exact hrest
      · exact Relation.ReflTransGen.head hedge hrest

/-- Witness for the amended C6: a guarded two-step run — trigger then a
failing extraction — moves WAITING_FOR_UPLOAD along allowed edges to
INVALID_BLOB_HAS_BEEN_UPLOADED. -/
theorem C6_guarded_transitions_follow_edges_witness :
    Relation.ReflTransGen (fun a b => allowedEdge a b = true)
      RecognitionStatus.WAITING_FOR_UPLOAD
      RecognitionStatus.INVALID_BLOB_HAS_BEEN_UPLOADED :=
  C6_guarded_transitions_follow_edges
    [("b1", { callback_url := "https://example.com/cb",
              status := RecognitionStatus.WAITING_FOR_UPLOAD, labels := none })]
    [Call.startRecognition "b1", Call.getLabels "b1" (DetectOutcome.invalidBlob "bad format")]
    "b1" RecognitionStatus.WAITING_FOR_UPLOAD
    RecognitionStatus.INVALID_BLOB_HAS_BEEN_UPLOADED
    ⟨by decide, by decide, trivial⟩ (by decide) (by decide)

end App
